import Mathlib

/-!
Shallow embedding of the Cossistant RAG service (apps/rag/src), the
chunk-and-embed pipeline: the Splitter wrapper (services/chunker.py,
chunk_document), the Embedding Client (services/embedder.py,
generate_embeddings) and the POST /chunk handler
(api/routes/chunk.py, create_chunks).

Modelling choices:
- The third-party SentenceSplitter (llama_index) is an external
  collaborator; it appears as an explicit function parameter
  `split : Int → Int → String → Except String (List String)`
  (chunk_size, chunk_overlap, content); an `Except.error` models the
  exception the library may raise (e.g. on overlap larger than size).
- The external embedding provider is a function from the request's
  input list to an already-parsed HTTP response (status code, JSON
  data array, raw text).  Embedding scalar values are never computed
  on by this system, so the carrier `Int` stands in for the
  provider-defined floats.
- Effectful functions return, alongside their result, the number of
  outbound HTTP calls they performed, so that "no network call is
  made" is a provable statement.
- Python exceptions are `Except String`; the handler's try/except is
  the match that maps any error to an HTTP 500 with the message as
  detail.
-/

/-- Embedding of config.py Settings: environment-derived configuration
with its in-code defaults. -/
structure Settings where
  openrouter_api_key : String := ""
  openrouter_embedding_model : String := "openai/text-embedding-3-small"
  port : Int := 8000
  host : String := "0.0.0.0"
  default_chunk_size : Int := 512
  default_chunk_overlap : Int := 50
deriving Repr, DecidableEq

/-- The module-level `settings = Settings()` of config.py. -/
def settings : Settings := {}

/-- Embedding of Python `v or d` for a value of type `int | None`:
both `None` and `0` are falsy and select the default. -/
def pyOrInt (v : Option Int) (d : Int) : Int :=
  match v with
  | none => d
  | some n => if n = 0 then d else n

/-- A chunk dictionary as built by chunk_document:
`{"content": ..., "chunk_index": idx}`. -/
structure Chunk where
  content : String
  chunk_index : Nat
deriving Repr, DecidableEq

/-- The type of the third-party splitter as used by chunk_document:
given chunk_size, chunk_overlap and the document text, it either
returns the list of text splits in order or raises. -/
def Splitter : Type :=
  Int → Int → String → Except String (List String)

/-- The body of chunk_document after the two defaulting lines:
construct the splitter with the resolved chunk_size/chunk_overlap, get
the nodes for the document, and enumerate them into chunk
dictionaries with chunk_index 0, 1, ... in emission order. -/
def chunk_document_core (split : Splitter) (chunk_size chunk_overlap : Int)
    (content : String) : Except String (List Chunk) :=
  match split chunk_size chunk_overlap content with
  | .error e => .error e
  | .ok nodes =>
      .ok (nodes.enum.map (fun p => { content := p.2, chunk_index := p.1 }))

/-- Embedding of services/chunker.py chunk_document: resolve the
optional parameters with Python `or` against the settings defaults,
then split and enumerate. -/
def chunk_document (split : Splitter) (content : String)
    (chunk_size chunk_overlap : Option Int) : Except String (List Chunk) :=
  chunk_document_core split
    (pyOrInt chunk_size settings.default_chunk_size)
    (pyOrInt chunk_overlap settings.default_chunk_overlap)
    content

/-- One item of the provider's JSON `data` array: `{"embedding": [...]}`. -/
structure ProviderItem where
  embedding : List Int
deriving Repr, DecidableEq

/-- The provider's HTTP response as the embedder reads it:
status_code, the parsed `data` array, and the raw response text. -/
structure ProviderResponse where
  status_code : Nat
  data : List ProviderItem
  text : String
deriving Repr, DecidableEq

/-- The external embedding provider: maps the batched input list to
one HTTP response. -/
def Provider : Type :=
  List String → ProviderResponse

/-- Embedding of services/embedder.py generate_embeddings: empty input
returns [] with no HTTP call; otherwise one POST is made, a non-200
status raises `Exception(f"OpenRouter embedding failed: {response.text}")`,
and on success the `embedding` field of each data item is returned in
the provider's order.  The second component counts outbound HTTP calls. -/
def generate_embeddings (provider : Provider) (texts : List String) :
    Except String (List (List Int)) × Nat :=
  if texts = [] then
    (.ok [], 0)
  else
    let response := provider texts
    if response.status_code ≠ 200 then
      (.error ("OpenRouter embedding failed: " ++ response.text), 1)
    else
      (.ok (response.data.map (fun item => item.embedding)), 1)

/-- Request body of POST /chunk (api/routes/chunk.py ChunkRequest);
metadata is an opaque caller-supplied object of some type μ. -/
structure ChunkRequest (μ : Type) where
  content : String
  metadata : Option μ := none
  chunk_size : Option Int := none
  chunk_overlap : Option Int := none
deriving Repr, DecidableEq

/-- One response chunk (api/routes/chunk.py ChunkResponse). -/
structure ChunkResponse (μ : Type) where
  content : String
  embedding : List Int
  chunk_index : Nat
  metadata : Option μ := none
deriving Repr, DecidableEq

/-- Response body of POST /chunk (api/routes/chunk.py ChunkResult). -/
structure ChunkResult (μ : Type) where
  chunks : List (ChunkResponse μ)
  total_chunks : Nat
deriving Repr, DecidableEq

/-- A FastAPI HTTPException as raised by the handler:
status_code and detail. -/
structure HTTPError where
  status_code : Nat
  detail : String
deriving Repr, DecidableEq

/-- The extraction of chunk contents for embedding in create_chunks:
chunk_contents = one content string per chunk, preserving order. -/
def chunk_texts (chunks : List Chunk) : List String :=
  chunks.map (fun chunk => chunk.content)

/-- The list comprehension of generate_embeddings over the provider's
parsed response: the embedding field of each data item, in the
provider's order. -/
def provider_vectors (provider : Provider) (texts : List String) :
    List (List Int) :=
  (provider texts).data.map (fun item => item.embedding)

/-- The assembly loop of create_chunks: zip chunks with embeddings
(Python zip stops at the shorter list) and attach the request
metadata to each. -/
def assemble_chunks {μ : Type} (metadata : Option μ) (chunks : List Chunk)
    (embeddings : List (List Int)) : List (ChunkResponse μ) :=
  (chunks.zip embeddings).map
    (fun p => { content := p.1.content
                embedding := p.2
                chunk_index := p.1.chunk_index
                metadata := metadata })

/-- Embedding of api/routes/chunk.py create_chunks: split the content,
return the empty result if there are no chunks, otherwise call the
Embedding Client once on the chunk contents, zip chunks with
embeddings, and attach the request metadata to every chunk; any
exception from the pipeline is caught and becomes
HTTPException(status_code=500, detail=str(e)).  The second component
counts outbound HTTP calls made while handling the request. -/
def create_chunks {μ : Type} (split : Splitter) (provider : Provider)
    (request : ChunkRequest μ) : Except HTTPError (ChunkResult μ) × Nat :=
  match chunk_document split request.content request.chunk_size
      request.chunk_overlap with
  | .error e => (.error ⟨500, e⟩, 0)
  | .ok chunks =>
      if chunks = [] then
        (.ok ⟨[], 0⟩, 0)
      else
        let chunk_contents := chunk_texts chunks
        match generate_embeddings provider chunk_contents with
        | (.error e, calls) => (.error ⟨500, e⟩, calls)
        | (.ok embeddings, calls) =>
            let result_chunks := assemble_chunks request.metadata chunks
              embeddings
            (.ok ⟨result_chunks, result_chunks.length⟩, calls)

/-! Concrete stub collaborators, used by witnesses and counterexamples. -/

/-- A stub splitter: the empty document yields no splits, any other
document is a single split. -/
def splitStub : Splitter := fun _ _ s => if s = "" then .ok [] else .ok [s]

/-- A stub splitter that always raises. -/
def splitErr : Splitter := fun _ _ _ => .error "splitter exploded"

/-- A stub splitter that always produces two splits. -/
def splitTwo : Splitter := fun _ _ _ => .ok ["alpha", "beta"]

/-- A stub splitter mirroring the llama_index constructor check: it
raises when the overlap is larger than the size, and otherwise yields
the whole document as one split. -/
def splitReject : Splitter := fun cs co content =>
  if cs < co then
    .error ("Got a larger chunk overlap (" ++ toString co ++
      ") than chunk size (" ++ toString cs ++ "), should be smaller.")
  else
    .ok [content]

/-- A stub splitter that records the size and overlap it received
inside its single split. -/
def splitRecord : Splitter := fun cs co _ =>
  .ok [toString cs ++ "/" ++ toString co]

/-- A stub provider that answers every request with one vector. -/
def providerOne : Provider := fun _ => ⟨200, [⟨[1]⟩], "ok"⟩

/-- A stub provider that answers with one vector per input text, the
vector holding the input's position. -/
def providerEcho : Provider := fun texts =>
  ⟨200, (List.range texts.length).map (fun i => ⟨[Int.ofNat i]⟩), "ok"⟩

/-- A stub provider that rejects every request with HTTP 401. -/
def provider401 : Provider := fun _ => ⟨401, [], "No auth credentials found"⟩

/-- A stub provider that rejects every request with HTTP 503 but the
same response text as provider401. -/
def provider503 : Provider := fun _ => ⟨503, [], "No auth credentials found"⟩

/-- A concrete response chunk used as witness data. -/
def chunkHi : ChunkResponse Nat := ⟨"hi", [1], 0, some 5⟩

/-- Concrete pipeline result of splitTwo with providerEcho and
metadata some 1. -/
def resultA : ChunkResult Nat :=
  ⟨[⟨"alpha", [0], 0, some 1⟩, ⟨"beta", [1], 1, some 1⟩], 2⟩

/-- Concrete pipeline result of splitTwo with providerEcho and
metadata some 2. -/
def resultB : ChunkResult Nat :=
  ⟨[⟨"alpha", [0], 0, some 2⟩, ⟨"beta", [1], 1, some 2⟩], 2⟩

/-- Inversion helper: a successful response of the handler is either
the empty result from an empty chunk list, or the zip of a non-empty
chunk list with the embeddings the provider returned for its
contents. -/
theorem create_chunks_ok_cases {μ : Type} (split : Splitter)
    (provider : Provider) (req : ChunkRequest μ) (r : ChunkResult μ)
    (h : (create_chunks split provider req).1 = .ok r) :
    (chunk_document split req.content req.chunk_size req.chunk_overlap
        = .ok [] ∧ r = ⟨[], 0⟩) ∨
    ∃ (chunks : List Chunk) (embeddings : List (List Int)),
      chunk_document split req.content req.chunk_size req.chunk_overlap
        = .ok chunks ∧
      chunks ≠ [] ∧
      (generate_embeddings provider (chunk_texts chunks)).1 = .ok embeddings ∧
      r = ⟨assemble_chunks req.metadata chunks embeddings,
          (assemble_chunks req.metadata chunks embeddings).length⟩
    := by
  unfold create_chunks at h
  cases hcd : chunk_document split req.content req.chunk_size req.chunk_overlap
    with
  | error e =>
      rw [hcd] at h
      simp at h
  | ok chunks =>
      rw [hcd] at h
      simp only at h
      by_cases hne : chunks = []
      · subst hne
        rw [if_pos rfl] at h
        simp only at h
        injection h with h
        subst h
        exact Or.inl ⟨rfl, rfl⟩
      · right
        rw [if_neg hne] at h
        rcases hp : generate_embeddings provider (chunk_texts chunks)
          with ⟨res, calls⟩
        rw [hp] at h
        cases res with
        | error e => simp at h
        | ok embeddings =>
            simp only at h
            injection h with h
            subst h
            exact ⟨chunks, embeddings, rfl, hne, by rw [hp], rfl⟩

/-- C7: for the empty input list, generate_embeddings returns the
empty list and performs no HTTP call, whatever the provider would
answer. -/
theorem generate_embeddings_empty_no_call (provider : Provider) :
    generate_embeddings provider [] = (.ok [], 0) := rfl

/-- C2: for empty content, given the splitter contract that an empty
document yields no splits, the handler returns exactly
chunks = [], total_chunks = 0 as a success, and no HTTP call to the
embedding provider is made. -/
theorem create_chunks_empty_content {μ : Type} (split : Splitter)
    (provider : Provider) (metadata : Option μ) (cs co : Option Int)
    (hsplit : ∀ a b, split a b "" = .ok []) :
    create_chunks split provider ⟨"", metadata, cs, co⟩ = (.ok ⟨[], 0⟩, 0) := by
  unfold create_chunks chunk_document chunk_document_core
  rw [hsplit]
  simp

/-- Witness for C2 at a concrete splitter and provider. -/
theorem create_chunks_empty_content_witness :
    create_chunks splitStub provider401
      ({ content := "" } : ChunkRequest Nat) = (.ok ⟨[], 0⟩, 0) :=
  create_chunks_empty_content splitStub provider401 none none none
    (fun _ _ => rfl)

/-- C3: whenever the splitter succeeds with a non-empty list of
splits, chunk_document returns a non-empty chunk list whose
chunk_index fields are exactly 0, 1, ..., N-1 in emission order (no
gaps, no repeats). -/
theorem chunk_document_indices (split : Splitter) (content : String)
    (cs co : Option Int) (ts : List String)
    (hsplit : split (pyOrInt cs settings.default_chunk_size)
      (pyOrInt co settings.default_chunk_overlap) content = .ok ts)
    (hne : ts ≠ []) :
    chunk_document split content cs co
      = .ok (ts.enum.map (fun p => (⟨p.2, p.1⟩ : Chunk))) ∧
    ts.enum.map (fun p => (⟨p.2, p.1⟩ : Chunk)) ≠ [] ∧
    (ts.enum.map (fun p => (⟨p.2, p.1⟩ : Chunk))).map (fun c => c.chunk_index)
      = List.range (ts.enum.map (fun p => (⟨p.2, p.1⟩ : Chunk))).length := by
  refine ⟨?_, ?_, ?_⟩
  · unfold chunk_document chunk_document_core
    rw [hsplit]
  · simp [hne]
  · simp only [List.map_map, List.length_map, List.enum_length]
    have hcomp : ((fun c : Chunk => c.chunk_index) ∘
        fun p : Nat × String => (⟨p.2, p.1⟩ : Chunk)) = Prod.fst := rfl
    rw [hcomp, List.enum_map_fst]

/-- Witness for C3 at a concrete splitter and content. -/
theorem chunk_document_indices_witness :
    chunk_document splitTwo "hello" none none
      = .ok [⟨"alpha", 0⟩, ⟨"beta", 1⟩] ∧
    ([⟨"alpha", 0⟩, ⟨"beta", 1⟩] : List Chunk) ≠ [] ∧
    ([⟨"alpha", 0⟩, ⟨"beta", 1⟩] : List Chunk).map (fun c => c.chunk_index)
      = List.range 2 :=
  chunk_document_indices splitTwo "hello" none none ["alpha", "beta"] rfl
    (by decide)

/-- C10: because defaulting uses Python `or` on the raw values, an
explicitly supplied 0 for chunk_size or chunk_overlap behaves exactly
like omitting the parameter; omitted parameters resolve to the
configured defaults 512 and 50; and any nonzero supplied value is
passed to the splitter unchanged. -/
theorem chunk_document_zero_is_default (split : Splitter) (content : String) :
    (∀ co, chunk_document split content (some 0) co
      = chunk_document split content none co) ∧
    (∀ cs, chunk_document split content cs (some 0)
      = chunk_document split content cs none) ∧
    (chunk_document split content none none
      = chunk_document_core split 512 50 content) ∧
    (∀ v w : Int, v ≠ 0 → w ≠ 0 →
      chunk_document split content (some v) (some w)
        = chunk_document_core split v w content) := by
  refine ⟨fun co => rfl, fun cs => rfl, rfl, fun v w hv hw => ?_⟩
  unfold chunk_document
  rw [show pyOrInt (some v) settings.default_chunk_size = v by
        simp [pyOrInt, hv],
      show pyOrInt (some w) settings.default_chunk_overlap = w by
        simp [pyOrInt, hw]]

/-- C4: any exception raised by the Splitter or the Embedding Client
is caught at the handler boundary and becomes an HTTP 500 response
whose detail is the exception's message string; the error response
carries no chunk list, so no partial result is returned. -/
theorem pipeline_errors_become_500 {μ : Type} (split : Splitter)
    (provider : Provider) (req : ChunkRequest μ) :
    (∀ e, chunk_document split req.content req.chunk_size req.chunk_overlap
        = .error e →
      (create_chunks split provider req).1 = .error ⟨500, e⟩) ∧
    (∀ chunks e,
      chunk_document split req.content req.chunk_size req.chunk_overlap
        = .ok chunks →
      chunks ≠ [] →
      (generate_embeddings provider (chunk_texts chunks)).1 = .error e →
      (create_chunks split provider req).1 = .error ⟨500, e⟩) := by
  constructor
  · intro e he
    unfold create_chunks
    rw [he]
  · intro chunks e hok hne hge
    unfold create_chunks
    rw [hok]
    simp only [if_neg hne]
    rcases hp : generate_embeddings provider (chunk_texts chunks)
      with ⟨res, calls⟩
    rw [hp] at hge
    simp only at hge
    subst hge
    rfl

/-- Witness for C4: a raising splitter surfaces as HTTP 500 with the
exception message as detail. -/
theorem pipeline_errors_become_500_witness :
    (create_chunks splitErr providerOne
      ({ content := "x" } : ChunkRequest Nat)).1
      = .error ⟨500, "splitter exploded"⟩ :=
  (pipeline_errors_become_500 splitErr providerOne
    { content := "x" }).1 "splitter exploded" rfl

/-- C6: on every successful request, each chunk of the response
carries exactly the metadata object supplied in the request,
unchanged. -/
theorem metadata_passthrough {μ : Type} (split : Splitter)
    (provider : Provider) (req : ChunkRequest μ) (r : ChunkResult μ)
    (h : (create_chunks split provider req).1 = .ok r) :
    ∀ c ∈ r.chunks, c.metadata = req.metadata := by
  rcases create_chunks_ok_cases split provider req r h with
    ⟨_, hr⟩ | ⟨chunks, embeddings, _, _, _, hr⟩
  · subst hr
    intro c hc
    simp at hc
  · subst hr
    intro c hc
    simp only [assemble_chunks, List.mem_map] at hc
    obtain ⟨p, _, hpc⟩ := hc
    rw [← hpc]

/-- Witness for C6 at a concrete successful request. -/
theorem metadata_passthrough_witness : chunkHi.metadata = some 5 :=
  metadata_passthrough splitStub providerOne ⟨"hi", some 5, none, none⟩
    ⟨[chunkHi], 1⟩ rfl chunkHi (by simp)

/-- C9: the Splitter wrapper is pure and deterministic — identical
content, chunk_size and chunk_overlap give identical chunk lists —
and two pipeline runs through the same deterministic provider on
requests agreeing on those inputs (metadata may differ) yield
identical chunk boundaries (contents and indices) and counts. -/
theorem splitter_deterministic {μ ν : Type} (split : Splitter)
    (provider : Provider) (content content' : String)
    (cs cs' co co' : Option Int) (m : Option μ) (m' : Option ν)
    (hc : content = content') (hs : cs = cs') (ho : co = co') :
    chunk_document split content cs co
      = chunk_document split content' cs' co' ∧
    ∀ r r',
      (create_chunks split provider ⟨content, m, cs, co⟩).1 = .ok r →
      (create_chunks split provider ⟨content', m', cs', co'⟩).1 = .ok r' →
      (r.chunks.map (fun c => (c.content, c.chunk_index))
        = r'.chunks.map (fun c => (c.content, c.chunk_index))) ∧
      r.total_chunks = r'.total_chunks := by
  subst hc hs ho
  refine ⟨rfl, ?_⟩
  intro r r' h h'
  rcases create_chunks_ok_cases split provider ⟨content, m, cs, co⟩ r h with
    ⟨hcd, hr⟩ | ⟨chunks, embeddings, hcd, hne, hge, hr⟩ <;>
  rcases create_chunks_ok_cases split provider ⟨content, m', cs, co⟩ r' h' with
    ⟨hcd', hr'⟩ | ⟨chunks', embeddings', hcd', hne', hge', hr'⟩
  · subst hr hr'
    exact ⟨rfl, rfl⟩
  · rw [hcd] at hcd'
    cases hcd'
    exact absurd rfl hne'
  · rw [hcd] at hcd'
    cases hcd'
    exact absurd rfl hne
  · rw [hcd] at hcd'
    cases hcd'
    rw [hge] at hge'
    cases hge'
    subst hr hr'
    refine ⟨?_, by simp [assemble_chunks]⟩
    simp [assemble_chunks, List.map_map]

/-- Witness for C9: two runs over the same content with different
metadata produce the same boundaries. -/
theorem splitter_deterministic_witness :
    (resultA.chunks.map (fun c => (c.content, c.chunk_index))
      = resultB.chunks.map (fun c => (c.content, c.chunk_index))) ∧
    resultA.total_chunks = resultB.total_chunks :=
  (splitter_deterministic splitTwo providerEcho "doc" "doc" none none none none
    (some 1) (some 2) rfl rfl rfl).2 resultA resultB rfl rfl

/-- Witness for C10 at concrete supplied values. -/
theorem chunk_document_zero_is_default_witness :
    chunk_document splitRecord "doc" (some 0) none
      = chunk_document splitRecord "doc" none none ∧
    chunk_document splitRecord "doc" (some 7) (some 3)
      = chunk_document_core splitRecord 7 3 "doc" :=
  ⟨(chunk_document_zero_is_default splitRecord "doc").1 none,
   (chunk_document_zero_is_default splitRecord "doc").2.2.2 7 3
     (by decide) (by decide)⟩

/-- Projections of the assembled response chunks: with exactly one
embedding per chunk, the assembly preserves every chunk's content and
index in order and pairs the i-th chunk with the i-th embedding. -/
theorem assemble_chunks_proj {μ : Type} (m : Option μ) :
    ∀ (chunks : List Chunk) (E : List (List Int)), E.length = chunks.length →
      (assemble_chunks m chunks E).length = chunks.length ∧
      (assemble_chunks m chunks E).map (fun c => c.content)
        = chunks.map (fun c => c.content) ∧
      (assemble_chunks m chunks E).map (fun c => c.chunk_index)
        = chunks.map (fun c => c.chunk_index) ∧
      (assemble_chunks m chunks E).map (fun c => c.embedding) = E := by
  intro chunks
  induction chunks with
  | nil =>
      intro E hE
      cases E with
      | nil => simp [assemble_chunks]
      | cons e E => simp at hE
  | cons c cs ih =>
      intro E hE
      cases E with
      | nil => simp at hE
      | cons e E =>
          obtain ⟨h0, h1, h2, h3⟩ := ih E (by simpa using hE)
          simp [assemble_chunks, List.zip_cons_cons] at h0 h1 h2 h3 ⊢
          exact ⟨h0, h1, h2, h3⟩

/-- C1 (amended): when the provider answers with status 200 and
exactly one vector per input text, the Embedding Client returns the
provider's vectors in order with one HTTP call, and the handler's
response pairs chunk i with the provider's vector for input text i —
same length, same contents, same indices.  (The unamended claim fails:
see the counterexample of a short provider response being silently
truncated.) -/
theorem embedding_alignment {μ : Type} (split : Splitter) (provider : Provider)
    (req : ChunkRequest μ) (chunks : List Chunk)
    (hcd : chunk_document split req.content req.chunk_size req.chunk_overlap
      = .ok chunks)
    (hne : chunks ≠ [])
    (hstatus : (provider (chunk_texts chunks)).status_code = 200)
    (hlen : (provider (chunk_texts chunks)).data.length = chunks.length) :
    generate_embeddings provider (chunk_texts chunks)
      = (.ok (provider_vectors provider (chunk_texts chunks)), 1) ∧
    (create_chunks split provider req).1
      = .ok ⟨assemble_chunks req.metadata chunks
              (provider_vectors provider (chunk_texts chunks)),
            (assemble_chunks req.metadata chunks
              (provider_vectors provider (chunk_texts chunks))).length⟩ ∧
    (assemble_chunks req.metadata chunks
      (provider_vectors provider (chunk_texts chunks))).length
      = chunks.length ∧
    (assemble_chunks req.metadata chunks
      (provider_vectors provider (chunk_texts chunks))).map
        (fun c => c.content) = chunks.map (fun c => c.content) ∧
    (assemble_chunks req.metadata chunks
      (provider_vectors provider (chunk_texts chunks))).map
        (fun c => c.chunk_index) = chunks.map (fun c => c.chunk_index) ∧
    (assemble_chunks req.metadata chunks
      (provider_vectors provider (chunk_texts chunks))).map
        (fun c => c.embedding)
      = provider_vectors provider (chunk_texts chunks) := by
  have htne : chunk_texts chunks ≠ [] := by
    simp [chunk_texts, hne]
  have hge : generate_embeddings provider (chunk_texts chunks)
      = (.ok (provider_vectors provider (chunk_texts chunks)), 1) := by
    unfold generate_embeddings
    rw [if_neg htne]
    simp [provider_vectors, hstatus]
  have hElen : (provider_vectors provider (chunk_texts chunks)).length
      = chunks.length := by
    simp [provider_vectors, hlen]
  obtain ⟨h0, h1, h2, h3⟩ := assemble_chunks_proj req.metadata chunks
    (provider_vectors provider (chunk_texts chunks)) hElen
  refine ⟨hge, ?_, h0, h1, h2, h3⟩
  unfold create_chunks
  rw [hcd]
  simp only [if_neg hne]
  rw [hge]

/-- Witness for C1 amended at a concrete splitter, provider and
request. -/
theorem embedding_alignment_witness :
    generate_embeddings providerEcho ["alpha", "beta"] = (.ok [[0], [1]], 1) ∧
    (create_chunks splitTwo providerEcho
      (⟨"doc", some 3, none, none⟩ : ChunkRequest Nat)).1
      = .ok ⟨[⟨"alpha", [0], 0, some 3⟩, ⟨"beta", [1], 1, some 3⟩], 2⟩ :=
  ⟨(embedding_alignment splitTwo providerEcho ⟨"doc", some 3, none, none⟩
      [⟨"alpha", 0⟩, ⟨"beta", 1⟩] rfl (by decide) rfl rfl).1,
   (embedding_alignment splitTwo providerEcho ⟨"doc", some 3, none, none⟩
      [⟨"alpha", 0⟩, ⟨"beta", 1⟩] rfl (by decide) rfl rfl).2.1⟩

/-- C1 counterexample: the splitter yields two chunks but the provider
answers 200 with a single vector; generate_embeddings returns one
vector for two inputs without raising, and the handler's zip silently
drops the second chunk, answering success with a single chunk. -/
theorem provider_count_mismatch_truncated :
    (generate_embeddings providerOne ["alpha", "beta"]).1 = .ok [[1]] ∧
    (create_chunks splitTwo providerOne
      (⟨"text", none, none, none⟩ : ChunkRequest Nat)).1
      = .ok ⟨[⟨"alpha", [1], 0, none⟩], 1⟩ :=
  ⟨rfl, rfl⟩

/-- C5 (amended): on a non-success provider status the Embedding
Client fails after exactly one HTTP call (no retry) with the message
"OpenRouter embedding failed: " followed by the provider's response
text, and the handler surfaces it as HTTP 500 with that message as
detail. -/
theorem provider_error_propagates {μ : Type} (split : Splitter)
    (provider : Provider) (req : ChunkRequest μ) (chunks : List Chunk)
    (hcd : chunk_document split req.content req.chunk_size req.chunk_overlap
      = .ok chunks)
    (hne : chunks ≠ [])
    (hstatus : (provider (chunk_texts chunks)).status_code ≠ 200) :
    generate_embeddings provider (chunk_texts chunks)
      = (.error ("OpenRouter embedding failed: "
          ++ (provider (chunk_texts chunks)).text), 1) ∧
    create_chunks split provider req
      = (.error ⟨500, "OpenRouter embedding failed: "
          ++ (provider (chunk_texts chunks)).text⟩, 1) := by
  have htne : chunk_texts chunks ≠ [] := by simp [chunk_texts, hne]
  have hge : generate_embeddings provider (chunk_texts chunks)
      = (.error ("OpenRouter embedding failed: "
          ++ (provider (chunk_texts chunks)).text), 1) := by
    unfold generate_embeddings
    rw [if_neg htne]
    simp only [if_pos hstatus]
  refine ⟨hge, ?_⟩
  unfold create_chunks
  rw [hcd]
  simp only [if_neg hne]
  rw [hge]

/-- Witness for C5 amended at a concrete 401 provider. -/
theorem provider_error_propagates_witness :
    generate_embeddings provider401 ["x"]
      = (.error ("OpenRouter embedding failed: "
          ++ "No auth credentials found"), 1) ∧
    create_chunks splitStub provider401
      (⟨"x", none, none, none⟩ : ChunkRequest Nat)
      = (.error ⟨500, "OpenRouter embedding failed: "
          ++ "No auth credentials found"⟩, 1) :=
  provider_error_propagates splitStub provider401 ⟨"x", none, none, none⟩
    [⟨"x", 0⟩] rfl (by decide) (by decide)

/-- C5 counterexample: two provider responses with distinct statuses
(401 and 503) but the same response text produce identical failures,
so the error carries the provider's text but not its status. -/
theorem provider_status_not_carried :
    (provider401 ["a"]).status_code = 401 ∧
    (provider503 ["a"]).status_code = 503 ∧
    generate_embeddings provider401 ["a"]
      = generate_embeddings provider503 ["a"] ∧
    generate_embeddings provider401 ["a"]
      = (.error ("OpenRouter embedding failed: "
          ++ "No auth credentials found"), 1) :=
  ⟨rfl, rfl, rfl, rfl⟩

/-- C8 (amended): the code neither clamps malformed size/overlap nor
rejects them with HTTP 4xx: nonzero supplied values are handed to the
splitter unchanged, and if the splitter then raises, the handler
deterministically answers HTTP 500 with the raised message as
detail. -/
theorem malformed_params_surface_500 {μ : Type} (split : Splitter)
    (provider : Provider) (content : String) (cs co : Int) (m : Option μ)
    (hcs : cs ≠ 0) (hco : co ≠ 0) :
    chunk_document split content (some cs) (some co)
      = chunk_document_core split cs co content ∧
    ∀ e, split cs co content = .error e →
      (create_chunks split provider ⟨content, m, some cs, some co⟩).1
        = .error ⟨500, e⟩ := by
  have hpass : chunk_document split content (some cs) (some co)
      = chunk_document_core split cs co content := by
    unfold chunk_document
    rw [show pyOrInt (some cs) settings.default_chunk_size = cs by
          simp [pyOrInt, hcs],
        show pyOrInt (some co) settings.default_chunk_overlap = co by
          simp [pyOrInt, hco]]
  refine ⟨hpass, ?_⟩
  intro e he
  have hcd : chunk_document split content (some cs) (some co) = .error e := by
    rw [hpass]
    unfold chunk_document_core
    rw [he]
  unfold create_chunks
  rw [hcd]

/-- Witness for C8 amended at concrete malformed parameters (overlap
20 against size 10) with a rejecting splitter. -/
theorem malformed_params_surface_500_witness :
    chunk_document splitReject "hello" (some 10) (some 20)
      = chunk_document_core splitReject 10 20 "hello" ∧
    (create_chunks splitReject providerOne
      (⟨"hello", none, some 10, some 20⟩ : ChunkRequest Nat)).1
      = .error ⟨500, "Got a larger chunk overlap (" ++ toString (20 : Int)
          ++ ") than chunk size (" ++ toString (10 : Int)
          ++ "), should be smaller."⟩ :=
  ⟨(malformed_params_surface_500 splitReject providerOne "hello" 10 20
      (none : Option Nat) (by decide) (by decide)).1,
   (malformed_params_surface_500 splitReject providerOne "hello" 10 20
      (none : Option Nat) (by decide) (by decide)).2 _ rfl⟩

/-- C8 counterexample: with a request supplying chunk_size = 10 and
chunk_overlap = 20 and the rejecting splitter, the response is HTTP
500 (not a 4xx validation rejection), and a recording splitter shows
the malformed values reach the splitter unclamped. -/
theorem malformed_overlap_not_clamped_not_4xx :
    (create_chunks splitReject providerOne
      (⟨"hello", none, some 10, some 20⟩ : ChunkRequest Nat)).1
      = .error ⟨500, "Got a larger chunk overlap (" ++ toString (20 : Int)
          ++ ") than chunk size (" ++ toString (10 : Int)
          ++ "), should be smaller."⟩ ∧
    chunk_document splitRecord "x" (some 10) (some 20)
      = .ok [⟨toString (10 : Int) ++ "/" ++ toString (20 : Int), 0⟩] :=
  ⟨rfl, rfl⟩
